import Mathlib

/-!
Shallow embedding of the app-flow generation pipeline and the diagram editor
of the `ai-mvp-workforce` repository.

Sources embedded here:
* `src/types/app-architecture.ts` — the data model (Screen, Transition,
  AppArchitecture and the enums they use).
* `src/lib/ai-flow-generator.ts` — `AIFlowGenerator`: the generation pipeline
  (`generateArchitecture`), the response normalizer
  (`validateAndNormalizeArchitecture`, `ensureConnectedFlow`, the
  `normalize*` helpers) and the deterministic fallback
  (`generateMockArchitecture` with `analyzeGoal`, `generateScreens`,
  `generateTransitions` and their per-app-type subroutines).
* `FlowDiagramInner` (the diagram editor component) — editor state and the
  mutation handlers `saveToHistory`, `onConnect`, `handleDeleteSelected`,
  `handleUndo`, `handleRedo`, `handleAlignNodes`, `handleDistributeNodes`
  and the context-menu `onDuplicate` action.

Modelling conventions:
* JavaScript numbers are modelled as `ℚ` (diagram coordinates) or `Nat`
  (counters, the `Date.now()` clock).  The clock is passed explicitly as a
  `now : Nat` parameter wherever the source calls `Date.now()` or
  `new Date().toISOString()`.
* A JSON field that may be absent is an `Option`; the JavaScript `x || d`
  default idiom on strings is `jsOrString` (which, like `||`, also replaces
  the empty string), on booleans `jsOrBool`, and JavaScript truthiness tests
  on optional strings are `jsTruthy`.
* The external AI call of `generateArchitecture` is modelled by an explicit
  `Except String RawPayload` argument: `Except.error` is any thrown failure
  (network error, unparseable JSON), `Except.ok` carries the decoded JSON
  payload.
-/

/-- Screen type enum from `src/types/app-architecture.ts` (`ScreenType`). -/
inductive ScreenType where
  | AUTH | ONBOARDING | VERIFICATION
  | DASHBOARD | HOME
  | LIST | GRID | DETAIL | FORM | SEARCH | FILTER
  | PROFILE | SETTINGS | PREFERENCES | ACCOUNT
  | CHAT | NOTIFICATIONS | FEED
  | CART | CHECKOUT | PAYMENT | ORDER_HISTORY
  | GALLERY | CAMERA | MEDIA_VIEWER
  | TAB_BAR | DRAWER | MODAL | BOTTOM_SHEET
  | ERROR | LOADING | EMPTY_STATE | TUTORIAL | HELP
  | MAP | CALENDAR | ANALYTICS | REPORTS
  deriving DecidableEq

/-- Transition trigger enum (`TransitionTrigger`). -/
inductive TransitionTrigger where
  | USER_ACTION | API_SUCCESS | API_ERROR | TIMER | CONDITION | NAVIGATION
  deriving DecidableEq

/-- HTTP method enum (`HttpMethod`). -/
inductive HttpMethod where
  | GET | POST | PUT | DELETE | PATCH
  deriving DecidableEq

/-- Complexity enum (`ComplexityLevel`). -/
inductive ComplexityLevel where
  | SIMPLE | MODERATE | COMPLEX
  deriving DecidableEq

/-- Navigation pattern enum (`NavigationPattern`). -/
inductive NavigationPattern where
  | TAB_BASED | DRAWER | STACK | MODAL | BOTTOM_SHEET | WIZARD
  | MASTER_DETAIL | CARD_STACK
  deriving DecidableEq

/-- Form field descriptor (`FormField`). -/
structure FormField where
  name : String
  type : String
  required : Bool
  deriving DecidableEq

/-- User journey context attached to a screen (`UserJourneyContext`).  The
TypeScript string-literal unions are modelled as `String`. -/
structure UserJourneyContext where
  userIntent : String
  emotionalState : String
  cognitiveLoad : String
  contextOfUse : String
  userType : String
  deriving DecidableEq

/-- Accessibility block attached to a screen (`AccessibilityRequirements`). -/
structure AccessibilityRequirements where
  screenReader : Bool
  keyboardNavigation : Bool
  colorBlindFriendly : Bool
  largeText : Bool
  reducedMotion : Bool
  focusManagement : List String
  deriving DecidableEq

/-- Interaction pattern attached to a screen (`InteractionPattern`). -/
structure InteractionPattern where
  type : String
  target : String
  feedback : String
  result : String
  deriving DecidableEq

/-- Per-screen data block (`ScreenData`). -/
structure ScreenData where
  requiresAuth : Bool
  formFields : List FormField := []
  userJourney : Option UserJourneyContext := none
  accessibility : Option AccessibilityRequirements := none
  interactions : Option (List InteractionPattern) := none
  navigationPattern : Option NavigationPattern := none
  deriving DecidableEq

/-- A screen of an architecture (`Screen`). -/
structure Screen where
  id : String
  name : String
  type : ScreenType
  description : String
  components : List String
  data : ScreenData
  position : Option (ℚ × ℚ) := none
  deriving DecidableEq

/-- A directed transition between two screens (`Transition`).  `from` and `to`
hold screen ids. -/
structure Transition where
  id : String
  «from» : String
  «to» : String
  trigger : TransitionTrigger
  condition : Option String := none
  description : String
  deriving DecidableEq

/-- An API endpoint (`ApiEndpoint`).  The generator always produces an empty
endpoint list ("No APIs in UX flow phase"), so the request/response schema
fields, which are free-form JSON, are not modelled. -/
structure ApiEndpoint where
  id : String
  name : String
  method : HttpMethod
  path : String
  description : String
  authentication : Bool
  connectedScreens : List String
  deriving DecidableEq

/-- Architecture metadata (`AppMetadata`). -/
structure AppMetadata where
  createdAt : String
  updatedAt : String
  version : String
  tags : List String
  complexity : ComplexityLevel
  estimatedScreens : Nat
  estimatedApis : Nat
  deriving DecidableEq

/-- The validated screen/transition graph (`AppArchitecture`). -/
structure AppArchitecture where
  id : String
  name : String
  description : String
  screens : List Screen
  transitions : List Transition
  apiEndpoints : List ApiEndpoint
  metadata : AppMetadata
  deriving DecidableEq

/-- JavaScript `s1.includes(s2)` on strings. -/
def jsIncludes (s sub : String) : Bool := s.containsSubstr sub

/-- JavaScript `v || d` for an optional string field: `undefined` and the
empty string (both falsy) fall back to the default. -/
def jsOrString (v : Option String) (d : String) : String :=
  match v with
  | none => d
  | some s => if s = "" then d else s

/-- JavaScript `v || d` for an optional boolean field. -/
def jsOrBool (v : Option Bool) (d : Bool) : Bool := v.getD d

/-- JavaScript truthiness of an optional string (`undefined` and `""` are
falsy), as used in conditional-expression guards like `screen.userIntent ?`. -/
def jsTruthy (v : Option String) : Option String :=
  match v with
  | none => none
  | some s => if s = "" then none else some s

/-- Rendering of `new Date().toISOString()` for the explicit clock value.
Modelled as an injective rendering of the clock; only equality of timestamps
matters to the verified properties. -/
def toISOString (now : Nat) : String := s!"iso_{now}"

/-- Feature flags computed by `AIFlowGenerator.analyzeGoal`. -/
structure GoalFeatures where
  hasAuth : Bool
  hasOnboarding : Bool
  hasDashboard : Bool
  hasList : Bool
  hasDetail : Bool
  hasForm : Bool
  hasProfile : Bool
  hasSettings : Bool
  hasSearch : Bool
  hasCart : Bool
  hasPayment : Bool
  hasMap : Bool
  hasChat : Bool
  hasNotifications : Bool
  hasFeed : Bool
  hasBooking : Bool
  hasTracking : Bool
  deriving DecidableEq

/-- Result of `AIFlowGenerator.analyzeGoal`. -/
structure GoalAnalysis where
  appType : String
  appName : String
  tags : List String
  complexity : ComplexityLevel
  features : GoalFeatures
  originalGoal : String
  deriving DecidableEq

/-- `AIFlowGenerator.analyzeGoal`: keyword classification of the goal string
into an app type with feature flags. -/
def analyzeGoal (goal : String) : GoalAnalysis :=
  let lowerGoal := goal.toLower
  let foodDelivery := jsIncludes lowerGoal "food" || jsIncludes lowerGoal "deliver" ||
    jsIncludes lowerGoal "restaurant" || jsIncludes lowerGoal "order" || jsIncludes lowerGoal "meal"
  let ecommerce := jsIncludes lowerGoal "ecommerce" || jsIncludes lowerGoal "shop" ||
    jsIncludes lowerGoal "buy" || jsIncludes lowerGoal "sell" || jsIncludes lowerGoal "product" ||
    jsIncludes lowerGoal "cart"
  let social := jsIncludes lowerGoal "social" || jsIncludes lowerGoal "chat" ||
    jsIncludes lowerGoal "message" || jsIncludes lowerGoal "friend" || jsIncludes lowerGoal "post"
  let productivity := jsIncludes lowerGoal "todo" || jsIncludes lowerGoal "task" ||
    jsIncludes lowerGoal "project" || jsIncludes lowerGoal "manage" || jsIncludes lowerGoal "organize"
  let fitness := jsIncludes lowerGoal "fitness" || jsIncludes lowerGoal "workout" ||
    jsIncludes lowerGoal "exercise" || jsIncludes lowerGoal "health" || jsIncludes lowerGoal "track"
  let finance := jsIncludes lowerGoal "bank" || jsIncludes lowerGoal "money" ||
    jsIncludes lowerGoal "payment" || jsIncludes lowerGoal "budget" || jsIncludes lowerGoal "expense"
  let travel := jsIncludes lowerGoal "travel" || jsIncludes lowerGoal "trip" ||
    jsIncludes lowerGoal "hotel" || jsIncludes lowerGoal "flight" || jsIncludes lowerGoal "booking"
  let education := jsIncludes lowerGoal "learn" || jsIncludes lowerGoal "course" ||
    jsIncludes lowerGoal "study" || jsIncludes lowerGoal "education" || jsIncludes lowerGoal "quiz"
  let entertainment := jsIncludes lowerGoal "music" || jsIncludes lowerGoal "video" ||
    jsIncludes lowerGoal "stream" || jsIncludes lowerGoal "game" || jsIncludes lowerGoal "entertainment"
  let news := jsIncludes lowerGoal "news" || jsIncludes lowerGoal "article" ||
    jsIncludes lowerGoal "blog" || jsIncludes lowerGoal "read" || jsIncludes lowerGoal "content"
  let result : String × String × List String × ComplexityLevel :=
    if foodDelivery then
      ("foodDelivery", "Food Delivery App", ["food", "delivery", "restaurants", "orders"], .COMPLEX)
    else if ecommerce then
      ("ecommerce", "E-commerce App", ["ecommerce", "shopping", "products", "payments"], .COMPLEX)
    else if social then
      ("social", "Social App", ["social", "messaging", "community", "sharing"], .COMPLEX)
    else if productivity then
      ("productivity", "Productivity App", ["productivity", "tasks", "organization", "workflow"], .MODERATE)
    else if fitness then
      ("fitness", "Fitness App", ["fitness", "health", "tracking", "workouts"], .COMPLEX)
    else if finance then
      ("finance", "Finance App", ["finance", "banking", "payments", "budget"], .COMPLEX)
    else if travel then
      ("travel", "Travel App", ["travel", "booking", "trips", "hotels"], .COMPLEX)
    else if education then
      ("education", "Learning App", ["education", "learning", "courses", "knowledge"], .MODERATE)
    else if entertainment then
      ("entertainment", "Entertainment App", ["entertainment", "media", "streaming", "content"], .COMPLEX)
    else if news then
      ("news", "News App", ["news", "articles", "content", "reading"], .MODERATE)
    else
      ("general", "My App", [], .COMPLEX)
  let appType := result.1
  { appType := appType
    appName := result.2.1
    tags := result.2.2.1
    complexity := result.2.2.2
    features :=
      { hasAuth := true
        hasOnboarding := true
        hasDashboard := appType != "productivity"
        hasList := true
        hasDetail := true
        hasForm := true
        hasProfile := true
        hasSettings := true
        hasSearch := appType == "ecommerce" || appType == "foodDelivery" || appType == "news" ||
          appType == "entertainment"
        hasCart := appType == "ecommerce" || appType == "foodDelivery"
        hasPayment := appType == "ecommerce" || appType == "foodDelivery" || appType == "travel"
        hasMap := appType == "foodDelivery" || appType == "travel"
        hasChat := appType == "social" || appType == "ecommerce" || appType == "foodDelivery"
        hasNotifications := true
        hasFeed := appType == "social" || appType == "news" || appType == "entertainment"
        hasBooking := appType == "travel" || appType == "fitness"
        hasTracking := appType == "fitness" || appType == "foodDelivery" || appType == "travel" }
    originalGoal := goal }

/-- `AIFlowGenerator.generateFoodDeliveryScreens`: fixed 16-screen template. -/
def generateFoodDeliveryScreens (_analysis : GoalAnalysis) : List Screen :=
  [ { id := "screen_0", name := "Welcome Splash", type := .LOADING,
      description := "App launch screen with branding and location request",
      components := ["App Logo", "Location Permission Request", "Loading Animation"],
      data := { requiresAuth := false,
                userJourney := some { userIntent := "Launch app and discover food options nearby",
                                      emotionalState := "excited", cognitiveLoad := "low",
                                      contextOfUse := "mobile", userType := "new" } } },
    { id := "screen_1", name := "Onboarding", type := .ONBOARDING,
      description := "Introduction to app features: browse restaurants, track orders, save favorites",
      components := ["Feature Carousel", "Skip Button", "Get Started Button", "Progress Indicators"],
      data := { requiresAuth := false,
                userJourney := some { userIntent := "Understand app value and main features",
                                      emotionalState := "curious", cognitiveLoad := "medium",
                                      contextOfUse := "mobile", userType := "new" } } },
    { id := "screen_2", name := "Sign Up", type := .AUTH,
      description := "User registration with email, phone verification",
      components := ["Phone Number Input", "Email Input", "Terms Checkbox", "Continue Button", "Login Link"],
      data := { requiresAuth := false,
                formFields := [ { name := "phone", type := "tel", required := true },
                                { name := "email", type := "email", required := true },
                                { name := "firstName", type := "text", required := true } ] } },
    { id := "screen_3", name := "Phone Verification", type := .VERIFICATION,
      description := "SMS code verification for account security",
      components := ["Code Input Fields", "Resend Code Button", "Verify Button", "Edit Phone Link"],
      data := { requiresAuth := false } },
    { id := "screen_4", name := "Delivery Address", type := .FORM,
      description := "Set primary delivery address with map integration",
      components := ["Address Search Bar", "Map View", "Current Location Button", "Address Details Form", "Save Address Button"],
      data := { requiresAuth := true,
                formFields := [ { name := "street", type := "text", required := true },
                                { name := "apartment", type := "text", required := false },
                                { name := "city", type := "text", required := true },
                                { name := "instructions", type := "textarea", required := false } ] } },
    { id := "screen_5", name := "Restaurant Discovery", type := .HOME,
      description := "Main home screen with restaurant categories, deals, and personalized recommendations",
      components := ["Search Bar", "Cuisine Filter Chips", "Featured Restaurants Carousel", "Nearby Restaurants List", "Deals Banner", "Quick Reorder Section"],
      data := { requiresAuth := true } },
    { id := "screen_6", name := "Restaurant Search", type := .SEARCH,
      description := "Advanced search with filters for cuisine, price, delivery time, ratings",
      components := ["Search Input", "Filter Panel", "Sort Options", "Restaurant Grid", "Map Toggle", "Clear Filters"],
      data := { requiresAuth := true } },
    { id := "screen_7", name := "Restaurant Detail", type := .DETAIL,
      description := "Restaurant page with menu, reviews, delivery info, and photos",
      components := ["Restaurant Header", "Photo Gallery", "Rating & Reviews", "Menu Categories", "Menu Items List", "Add to Cart Buttons", "Restaurant Info"],
      data := { requiresAuth := true } },
    { id := "screen_8", name := "Menu Item Detail", type := .DETAIL,
      description := "Individual menu item with customization options",
      components := ["Item Photo", "Item Description", "Customization Options", "Size Selection", "Add-ons Checkboxes", "Special Instructions", "Add to Cart Button"],
      data := { requiresAuth := true } },
    { id := "screen_9", name := "Shopping Cart", type := .CART,
      description := "Review order, modify quantities, apply promo codes",
      components := ["Cart Items List", "Quantity Controls", "Remove Item Buttons", "Promo Code Input", "Delivery Fee Breakdown", "Checkout Button"],
      data := { requiresAuth := true } },
    { id := "screen_10", name := "Checkout", type := .CHECKOUT,
      description := "Delivery details, payment method, and order confirmation",
      components := ["Delivery Address Card", "Delivery Time Selector", "Payment Methods", "Tip Calculator", "Order Summary", "Place Order Button"],
      data := { requiresAuth := true } },
    { id := "screen_11", name := "Order Confirmation", type := .DETAIL,
      description := "Order success with estimated delivery time and tracking info",
      components := ["Success Animation", "Order Number", "Estimated Time", "Restaurant Info", "Track Order Button", "Order Again Button"],
      data := { requiresAuth := true } },
    { id := "screen_12", name := "Order Tracking", type := .MAP,
      description := "Real-time order tracking with map and status updates",
      components := ["Live Map", "Delivery Progress Steps", "Driver Info Card", "Estimated Arrival", "Call Driver Button", "Order Details"],
      data := { requiresAuth := true } },
    { id := "screen_13", name := "Order History", type := .LIST,
      description := "Past orders with reorder and review options",
      components := ["Order History List", "Order Status Badges", "Reorder Buttons", "Rate Order", "Search Orders", "Filter by Date"],
      data := { requiresAuth := true } },
    { id := "screen_14", name := "User Profile", type := .PROFILE,
      description := "Account management, saved addresses, payment methods",
      components := ["Profile Photo", "Personal Info Form", "Saved Addresses List", "Payment Methods", "Preferences Settings", "Logout Button"],
      data := { requiresAuth := true } },
    { id := "screen_15", name := "Favorites", type := .LIST,
      description := "Saved restaurants and frequently ordered items",
      components := ["Favorite Restaurants", "Favorite Items", "Quick Reorder Options", "Remove from Favorites", "Share Favorites"],
      data := { requiresAuth := true } } ]

/-- `AIFlowGenerator.generateEcommerceScreens`: fixed 8-screen template. -/
def generateEcommerceScreens (_analysis : GoalAnalysis) : List Screen :=
  [ { id := "screen_0", name := "Welcome", type := .ONBOARDING,
      description := "App introduction and feature highlights",
      components := ["Welcome Message", "Feature Showcase", "Get Started Button"],
      data := { requiresAuth := false } },
    { id := "screen_1", name := "Product Discovery", type := .HOME,
      description := "Main shopping interface with categories, deals, and recommendations",
      components := ["Search Bar", "Category Grid", "Featured Products", "Daily Deals", "Recommended for You"],
      data := { requiresAuth := false } },
    { id := "screen_2", name := "Product Search", type := .SEARCH,
      description := "Product search with advanced filtering",
      components := ["Search Input", "Filter Panel", "Sort Options", "Product Grid", "Search Suggestions"],
      data := { requiresAuth := false } },
    { id := "screen_3", name := "Product Details", type := .DETAIL,
      description := "Individual product page with photos, reviews, and purchase options",
      components := ["Product Image Gallery", "Product Info", "Size/Color Selection", "Add to Cart", "Reviews Section", "Related Products"],
      data := { requiresAuth := false } },
    { id := "screen_4", name := "Shopping Cart", type := .CART,
      description := "Review cart items and proceed to checkout",
      components := ["Cart Items", "Quantity Controls", "Remove Items", "Subtotal", "Checkout Button"],
      data := { requiresAuth := false } },
    { id := "screen_5", name := "User Registration", type := .AUTH,
      description := "Account creation for checkout and order tracking",
      components := ["Registration Form", "Social Login Options", "Guest Checkout Option"],
      data := { requiresAuth := false } },
    { id := "screen_6", name := "Checkout", type := .CHECKOUT,
      description := "Shipping and payment information",
      components := ["Shipping Address", "Payment Methods", "Order Summary", "Place Order"],
      data := { requiresAuth := true } },
    { id := "screen_7", name := "Order Confirmation", type := .DETAIL,
      description := "Order success and tracking information",
      components := ["Order Success", "Order Details", "Tracking Info", "Continue Shopping"],
      data := { requiresAuth := true } } ]

/-- `AIFlowGenerator.generateSocialScreens`: fixed 7-screen template. -/
def generateSocialScreens (_analysis : GoalAnalysis) : List Screen :=
  [ { id := "screen_0", name := "Welcome", type := .ONBOARDING,
      description := "App introduction and sign-up encouragement",
      components := ["Welcome Animation", "App Features", "Sign Up Button", "Login Link"],
      data := { requiresAuth := false } },
    { id := "screen_1", name := "Sign Up", type := .AUTH,
      description := "New user registration",
      components := ["Profile Photo Upload", "Username Input", "Bio Input", "Social Links"],
      data := { requiresAuth := false } },
    { id := "screen_2", name := "Friend Discovery", type := .LIST,
      description := "Find and connect with friends",
      components := ["Search Users", "Suggested Friends", "Contact Import", "Follow Buttons"],
      data := { requiresAuth := true } },
    { id := "screen_3", name := "News Feed", type := .FEED,
      description := "Main social feed with posts from connections",
      components := ["Create Post Button", "Story Carousel", "Feed Posts", "Like/Comment Actions", "Share Options"],
      data := { requiresAuth := true } },
    { id := "screen_4", name := "Create Post", type := .FORM,
      description := "Create and share new content",
      components := ["Text Input", "Photo/Video Upload", "Location Tag", "Audience Selector", "Post Button"],
      data := { requiresAuth := true } },
    { id := "screen_5", name := "Messages", type := .CHAT,
      description := "Direct messaging interface",
      components := ["Chat List", "New Message Button", "Search Conversations", "Unread Indicators"],
      data := { requiresAuth := true } },
    { id := "screen_6", name := "User Profile", type := .PROFILE,
      description := "User profile with posts and information",
      components := ["Profile Header", "Post Grid", "Bio Section", "Follow/Unfollow Button", "Message Button"],
      data := { requiresAuth := true } } ]

/-- `AIFlowGenerator.generateGeneralAppScreens`: the general template.  The
source builds the list imperatively with a running `screenIndex` counter; the
conditional segments are modelled as screen-builder functions receiving their
final index, assigned by position via `List.enum`. -/
def generateGeneralAppScreens (analysis : GoalAnalysis) : List Screen :=
  let builders : List (Nat → Screen) :=
    [ fun i =>
        { id := s!"screen_{i}", name := "Welcome", type := .ONBOARDING,
          description := "App introduction and feature overview",
          components := ["Welcome Message", "Feature Highlights", "Get Started Button"],
          data := { requiresAuth := false } } ]
    ++ (if analysis.features.hasAuth then
        [ fun i =>
            { id := s!"screen_{i}", name := "Sign Up", type := .AUTH,
              description := "User registration",
              components := ["Registration Form", "Terms Agreement", "Create Account Button"],
              data := { requiresAuth := false } },
          fun i =>
            { id := s!"screen_{i}", name := "Login", type := .AUTH,
              description := "User authentication",
              components := ["Login Form", "Forgot Password Link", "Sign Up Link"],
              data := { requiresAuth := false } } ]
      else [])
    ++ (if analysis.features.hasDashboard then
        [ fun i =>
            { id := s!"screen_{i}", name := "Dashboard", type := .DASHBOARD,
              description := "Main app dashboard with overview and quick actions",
              components := ["Stats Overview", "Quick Actions", "Recent Activity", "Navigation Menu"],
              data := { requiresAuth := analysis.features.hasAuth } } ]
      else [])
    ++ [ fun i =>
          { id := s!"screen_{i}", name := "Main List", type := .LIST,
            description := "Primary content listing with search and filters",
            components := ["Search Bar", "Filter Options", "Content List", "Add New Button"],
            data := { requiresAuth := analysis.features.hasAuth } },
        fun i =>
          { id := s!"screen_{i}", name := "Item Details", type := .DETAIL,
            description := "Detailed view of individual items",
            components := ["Item Header", "Content Details", "Action Buttons", "Related Items"],
            data := { requiresAuth := analysis.features.hasAuth } },
        fun i =>
          { id := s!"screen_{i}", name := "Create/Edit", type := .FORM,
            description := "Form for creating or editing content",
            components := ["Input Form", "Save Button", "Cancel Button", "Form Validation"],
            data := { requiresAuth := analysis.features.hasAuth } } ]
    ++ (if analysis.features.hasProfile then
        [ fun i =>
            { id := s!"screen_{i}", name := "Profile", type := .PROFILE,
              description := "User profile management",
              components := ["Profile Info", "Edit Profile", "Account Settings", "Activity History"],
              data := { requiresAuth := true } } ]
      else [])
    ++ (if analysis.features.hasSettings then
        [ fun i =>
            { id := s!"screen_{i}", name := "Settings", type := .SETTINGS,
              description := "App settings and preferences",
              components := ["General Settings", "Privacy Settings", "Notification Preferences", "Account Management"],
              data := { requiresAuth := analysis.features.hasAuth } } ]
      else [])
  builders.enum.map fun p => p.2 p.1

/-- `generateFinanceScreens` (delegates to the general template). -/
def generateFinanceScreens (analysis : GoalAnalysis) : List Screen :=
  generateGeneralAppScreens analysis

/-- `generateTravelScreens` (delegates to the general template). -/
def generateTravelScreens (analysis : GoalAnalysis) : List Screen :=
  generateGeneralAppScreens analysis

/-- `generateFitnessScreens` (delegates to the general template). -/
def generateFitnessScreens (analysis : GoalAnalysis) : List Screen :=
  generateGeneralAppScreens analysis

/-- `AIFlowGenerator.generateScreens`: dispatch on the analyzed app type. -/
def generateScreens (analysis : GoalAnalysis) : List Screen :=
  if analysis.appType = "foodDelivery" then generateFoodDeliveryScreens analysis
  else if analysis.appType = "ecommerce" then generateEcommerceScreens analysis
  else if analysis.appType = "social" then generateSocialScreens analysis
  else if analysis.appType = "finance" then generateFinanceScreens analysis
  else if analysis.appType = "travel" then generateTravelScreens analysis
  else if analysis.appType = "fitness" then generateFitnessScreens analysis
  else generateGeneralAppScreens analysis

/-- `AIFlowGenerator.generateFoodDeliveryTransitions`: fixed transition list. -/
def generateFoodDeliveryTransitions (_screens : List Screen) : List Transition :=
  [ { id := "transition_0", «from» := "screen_0", «to» := "screen_1", trigger := .USER_ACTION,
      description := "App loads, show onboarding" },
    { id := "transition_1", «from» := "screen_1", «to» := "screen_2", trigger := .USER_ACTION,
      description := "User wants to sign up" },
    { id := "transition_2", «from» := "screen_2", «to» := "screen_3", trigger := .USER_ACTION,
      description := "User submits phone number" },
    { id := "transition_3", «from» := "screen_3", «to» := "screen_4", trigger := .USER_ACTION,
      description := "User verifies phone" },
    { id := "transition_4", «from» := "screen_4", «to» := "screen_5", trigger := .USER_ACTION,
      description := "User sets delivery address" },
    { id := "transition_5", «from» := "screen_5", «to» := "screen_6", trigger := .USER_ACTION,
      description := "User searches restaurants" },
    { id := "transition_6", «from» := "screen_5", «to» := "screen_7", trigger := .USER_ACTION,
      description := "User selects restaurant" },
    { id := "transition_7", «from» := "screen_6", «to» := "screen_7", trigger := .USER_ACTION,
      description := "User selects restaurant from search" },
    { id := "transition_8", «from» := "screen_7", «to» := "screen_8", trigger := .USER_ACTION,
      description := "User views menu item" },
    { id := "transition_9", «from» := "screen_8", «to» := "screen_9", trigger := .USER_ACTION,
      description := "User adds item to cart" },
    { id := "transition_10", «from» := "screen_9", «to» := "screen_10", trigger := .USER_ACTION,
      description := "User proceeds to checkout" },
    { id := "transition_11", «from» := "screen_10", «to» := "screen_11", trigger := .USER_ACTION,
      description := "User places order" },
    { id := "transition_12", «from» := "screen_11", «to» := "screen_12", trigger := .USER_ACTION,
      description := "User tracks order" },
    { id := "transition_13", «from» := "screen_5", «to» := "screen_13", trigger := .USER_ACTION,
      description := "User views order history" },
    { id := "transition_14", «from» := "screen_5", «to» := "screen_14", trigger := .USER_ACTION,
      description := "User accesses profile" },
    { id := "transition_15", «from» := "screen_5", «to» := "screen_15", trigger := .USER_ACTION,
      description := "User views favorites" },
    { id := "transition_16", «from» := "screen_13", «to» := "screen_9", trigger := .USER_ACTION,
      description := "User reorders from history" },
    { id := "transition_17", «from» := "screen_15", «to» := "screen_7", trigger := .USER_ACTION,
      description := "User selects favorite restaurant" } ]

/-- `AIFlowGenerator.generateEcommerceTransitions`: fixed transition list. -/
def generateEcommerceTransitions (_screens : List Screen) : List Transition :=
  [ { id := "transition_0", «from» := "screen_0", «to» := "screen_1", trigger := .USER_ACTION,
      description := "User starts shopping" },
    { id := "transition_1", «from» := "screen_1", «to» := "screen_2", trigger := .USER_ACTION,
      description := "User searches products" },
    { id := "transition_2", «from» := "screen_1", «to» := "screen_3", trigger := .USER_ACTION,
      description := "User views product" },
    { id := "transition_3", «from» := "screen_2", «to» := "screen_3", trigger := .USER_ACTION,
      description := "User selects product from search" },
    { id := "transition_4", «from» := "screen_3", «to» := "screen_4", trigger := .USER_ACTION,
      description := "User adds to cart" },
    { id := "transition_5", «from» := "screen_4", «to» := "screen_5", trigger := .USER_ACTION,
      description := "User needs account for checkout" },
    { id := "transition_6", «from» := "screen_5", «to» := "screen_6", trigger := .USER_ACTION,
      description := "User proceeds to checkout" },
    { id := "transition_7", «from» := "screen_6", «to» := "screen_7", trigger := .USER_ACTION,
      description := "User completes purchase" } ]

/-- `AIFlowGenerator.generateSocialTransitions`: fixed transition list. -/
def generateSocialTransitions (_screens : List Screen) : List Transition :=
  [ { id := "transition_0", «from» := "screen_0", «to» := "screen_1", trigger := .USER_ACTION,
      description := "User signs up" },
    { id := "transition_1", «from» := "screen_1", «to» := "screen_2", trigger := .USER_ACTION,
      description := "User discovers friends" },
    { id := "transition_2", «from» := "screen_2", «to» := "screen_3", trigger := .USER_ACTION,
      description := "User enters main feed" },
    { id := "transition_3", «from» := "screen_3", «to» := "screen_4", trigger := .USER_ACTION,
      description := "User creates post" },
    { id := "transition_4", «from» := "screen_3", «to» := "screen_5", trigger := .USER_ACTION,
      description := "User opens messages" },
    { id := "transition_5", «from» := "screen_3", «to» := "screen_6", trigger := .USER_ACTION,
      description := "User views profile" } ]

/-- `AIFlowGenerator.generateGeneralTransitions`: a linear chain through the
screens in order, plus one detail-to-list back edge when more than 3 screens
exist and both a LIST and a DETAIL screen are present. -/
def generateGeneralTransitions (screens : List Screen) (_analysis : GoalAnalysis) : List Transition :=
  let chain := (screens.zip screens.tail).enum.map fun p =>
    let i := p.1
    let a := p.2.1
    let b := p.2.2
    let aname := a.name
    let bname := b.name
    { id := s!"transition_{i}", «from» := a.id, «to» := b.id, trigger := .USER_ACTION,
      description := s!"Navigate from {aname} to {bname}" : Transition }
  if screens.length > 3 then
    match screens.find? (fun s => s.type = .LIST), screens.find? (fun s => s.type = .DETAIL) with
    | some listScreen, some detailScreen =>
      chain ++ [ { id := s!"transition_{chain.length}", «from» := detailScreen.id,
                   «to» := listScreen.id, trigger := .USER_ACTION,
                   description := "Return to list" } ]
    | _, _ => chain
  else chain

/-- `AIFlowGenerator.generateTransitions`: dispatch on the analyzed app type. -/
def generateTransitions (screens : List Screen) (analysis : GoalAnalysis) : List Transition :=
  if analysis.appType = "foodDelivery" then generateFoodDeliveryTransitions screens
  else if analysis.appType = "ecommerce" then generateEcommerceTransitions screens
  else if analysis.appType = "social" then generateSocialTransitions screens
  else generateGeneralTransitions screens analysis

/-- `AIFlowGenerator.generateMockArchitecture`: the deterministic fallback.
`now` is the `Date.now()` clock at the moment of the call. -/
def generateMockArchitecture (goal : String) (now : Nat) : AppArchitecture :=
  let analysis := analyzeGoal goal
  let screens := generateScreens analysis
  let apiEndpoints : List ApiEndpoint := []
  let transitions := generateTransitions screens analysis
  { id := s!"app_{now}"
    name := analysis.appName
    description := goal
    screens := screens
    transitions := transitions
    apiEndpoints := apiEndpoints
    metadata :=
      { createdAt := toISOString now
        updatedAt := toISOString now
        version := "1.0.0"
        tags := analysis.tags
        complexity := analysis.complexity
        estimatedScreens := screens.length
        estimatedApis := 0 } }

/-- A raw interaction object inside a decoded AI screen (`screen.interactions`
entries; the normalizer reads `type`, `target` and `result`). -/
structure RawInteraction where
  type : String
  target : String
  result : String
  deriving DecidableEq

/-- A raw screen object inside a decoded AI payload.  Every field the
normalizer reads is optional, since the payload is untrusted JSON.  `id` is
carried because a payload may contain one, but the normalizer never reads
it. -/
structure RawScreen where
  id : Option String := none
  name : Option String := none
  type : Option String := none
  description : Option String := none
  components : Option (List String) := none
  requiresAuth : Option Bool := none
  formFields : Option (List FormField) := none
  userIntent : Option String := none
  cognitiveLoad : Option String := none
  accessibilityFeatures : Option (List String) := none
  interactions : Option (List RawInteraction) := none
  navigationPattern : Option String := none
  deriving DecidableEq

/-- A raw transition object inside a decoded AI payload.  `from` and `to`
carry screen names per the prompt contract. -/
structure RawTransition where
  «from» : Option String := none
  «to» : Option String := none
  trigger : Option String := none
  description : Option String := none
  userMotivation : Option String := none
  deriving DecidableEq

/-- A decoded AI payload (the `parsed` argument of
`validateAndNormalizeArchitecture`). -/
structure RawPayload where
  appName : Option String := none
  description : Option String := none
  complexity : Option String := none
  tags : Option (List String) := none
  screens : Option (List RawScreen) := none
  transitions : Option (List RawTransition) := none
  deriving DecidableEq

/-- `AIFlowGenerator.normalizeScreenType`: the `typeMap` lookup with `HOME`
as the fallback for unknown or missing types. -/
def normalizeScreenType (type : Option String) : ScreenType :=
  match type with
  | none => .HOME
  | some t =>
    match t.toLower with
    | "auth" => .AUTH
    | "onboarding" => .ONBOARDING
    | "verification" => .VERIFICATION
    | "dashboard" => .DASHBOARD
    | "home" => .HOME
    | "list" => .LIST
    | "grid" => .GRID
    | "detail" => .DETAIL
    | "form" => .FORM
    | "search" => .SEARCH
    | "filter" => .FILTER
    | "profile" => .PROFILE
    | "settings" => .SETTINGS
    | "preferences" => .PREFERENCES
    | "account" => .ACCOUNT
    | "chat" => .CHAT
    | "notifications" => .NOTIFICATIONS
    | "feed" => .FEED
    | "cart" => .CART
    | "checkout" => .CHECKOUT
    | "payment" => .PAYMENT
    | "order_history" => .ORDER_HISTORY
    | "gallery" => .GALLERY
    | "camera" => .CAMERA
    | "media_viewer" => .MEDIA_VIEWER
    | "tab_bar" => .TAB_BAR
    | "drawer" => .DRAWER
    | "modal" => .MODAL
    | "bottom_sheet" => .BOTTOM_SHEET
    | "error" => .ERROR
    | "loading" => .LOADING
    | "empty_state" => .EMPTY_STATE
    | "tutorial" => .TUTORIAL
    | "help" => .HELP
    | "map" => .MAP
    | "calendar" => .CALENDAR
    | "analytics" => .ANALYTICS
    | "reports" => .REPORTS
    | _ => .HOME

/-- `AIFlowGenerator.normalizeTransitionTrigger`: the `triggerMap` lookup with
`USER_ACTION` as the fallback. -/
def normalizeTransitionTrigger (trigger : String) : TransitionTrigger :=
  match trigger.toLower with
  | "user_action" => .USER_ACTION
  | "api_success" => .API_SUCCESS
  | "api_error" => .API_ERROR
  | "timer" => .TIMER
  | "condition" => .CONDITION
  | "navigation" => .NAVIGATION
  | _ => .USER_ACTION

/-- `AIFlowGenerator.normalizeComplexity`: the `complexityMap` lookup with
`SIMPLE` as the fallback. -/
def normalizeComplexity (complexity : Option String) : ComplexityLevel :=
  match complexity with
  | none => .SIMPLE
  | some c =>
    match c.toLower with
    | "simple" => .SIMPLE
    | "moderate" => .MODERATE
    | "complex" => .COMPLEX
    | _ => .SIMPLE

/-- `AIFlowGenerator.normalizeNavigationPattern`: the `patternMap` lookup with
`STACK` as the fallback. -/
def normalizeNavigationPattern (pattern : String) : NavigationPattern :=
  match pattern.toLower with
  | "tab_based" => .TAB_BASED
  | "drawer" => .DRAWER
  | "stack" => .STACK
  | "modal" => .MODAL
  | "bottom_sheet" => .BOTTOM_SHEET
  | "wizard" => .WIZARD
  | "master_detail" => .MASTER_DETAIL
  | "card_stack" => .CARD_STACK
  | _ => .STACK

/-- The screen-normalization step of `validateAndNormalizeArchitecture`: the
body of `(parsed.screens || []).map((screen, index) => ...)`.  Every screen
gets the fresh sequential id `screen_<index>`; the raw `id` field is never
read. -/
def normalizeScreen (index : Nat) (screen : RawScreen) : Screen :=
  { id := s!"screen_{index}"
    name := jsOrString screen.name s!"Screen {index}"
    type := normalizeScreenType screen.type
    description := jsOrString screen.description ""
    components := screen.components.getD []
    data :=
      { requiresAuth := jsOrBool screen.requiresAuth false
        formFields := screen.formFields.getD []
        userJourney := (jsTruthy screen.userIntent).map fun userIntent =>
          { userIntent := userIntent
            emotionalState := "focused"
            cognitiveLoad := jsOrString screen.cognitiveLoad "medium"
            contextOfUse := "mobile"
            userType := if jsOrBool screen.requiresAuth false then "returning" else "new" }
        accessibility := screen.accessibilityFeatures.map fun af =>
          { screenReader := af.contains "screen_reader"
            keyboardNavigation := af.contains "keyboard_nav"
            colorBlindFriendly := af.contains "color_contrast"
            largeText := true
            reducedMotion := false
            focusManagement := if af.contains "focus_management" then ["main-content"] else [] }
        interactions := screen.interactions.map fun l => l.map fun interaction =>
          { type := interaction.type
            target := interaction.target
            feedback := "visual"
            result := interaction.result }
        navigationPattern := (jsTruthy screen.navigationPattern).map normalizeNavigationPattern } }

/-- The normalized screen list of a payload. -/
def normalizedScreens (parsed : RawPayload) : List Screen :=
  (parsed.screens.getD []).enum.map fun p => normalizeScreen p.1 p.2

/-- Exact name lookup of a transition endpoint among the normalized screens
(`screens.find(s => s.name === transition.from)`; a missing endpoint field
matches nothing). -/
def findByName (screens : List Screen) (endpoint : Option String) : Option Screen :=
  match endpoint with
  | none => none
  | some n => screens.find? fun s => s.name = n

/-- Resolution of one raw transition by exact screen-name lookup: the body of
`(parsed.transitions || []).map((transition, index) => ...)`.  Returns `none`
(the source returns `null`, filtered out afterwards) when `from` or `to`
matches no screen name. -/
def resolveTransition (screens : List Screen) (index : Nat) (transition : RawTransition) :
    Option Transition :=
  let fromScreen : Option Screen := findByName screens transition.«from»
  let toScreen : Option Screen := findByName screens transition.«to»
  match fromScreen, toScreen with
  | some fs, some ts =>
    some { id := s!"transition_{index}"
           «from» := fs.id
           «to» := ts.id
           trigger := normalizeTransitionTrigger (jsOrString transition.trigger "user_action")
           description := jsOrString transition.description "User navigates"
           condition := transition.userMotivation }
  | _, _ => none

/-- The resolved transition list of a payload (`.map(...).filter(Boolean)`). -/
def resolvedTransitions (parsed : RawPayload) : List Transition :=
  (parsed.transitions.getD []).enum.filterMap fun p =>
    resolveTransition (normalizedScreens parsed) p.1 p.2

/-- The `connectedScreenIds` set of `ensureConnectedFlow`, modelled as the
list of all transition endpoints (membership is what matters). -/
def connectedIds (transitions : List Transition) : List String :=
  transitions.foldl (fun acc t => acc ++ [t.«from», t.«to»]) []

/-- `AIFlowGenerator.ensureConnectedFlow`: chains every screen that is not
incident to an existing transition behind the first connected screen (or
behind the first screen when none is connected), threading the previous
screen id through the loop.  The source's `firstConnectedScreen?.id ||
screens[0]?.id` distinguishes only `undefined` here, since screen ids are the
non-empty strings `screen_<i>`; it is modelled by the plain option match. -/
def ensureConnectedFlow (screens : List Screen) (existingTransitions : List Transition) :
    List Transition :=
  let connectedScreenIds := connectedIds existingTransitions
  let unconnectedScreens := screens.filter fun s => !(connectedScreenIds.contains s.id)
  if unconnectedScreens.length > 0 then
    let firstConnectedScreen := screens.find? fun s => connectedScreenIds.contains s.id
    let previousScreenId : Option String :=
      match firstConnectedScreen with
      | some s => some s.id
      | none => screens.head?.map Screen.id
    (unconnectedScreens.foldl
      (fun (acc : List Transition × Option String) screen =>
        let transitions := acc.1
        let previousScreenId := acc.2
        let transitions :=
          match previousScreenId with
          | some pid =>
            if pid ≠ screen.id then
              let sname := screen.name
              transitions ++
                [ { id := s!"fallback_transition_{transitions.length}"
                    «from» := pid
                    «to» := screen.id
                    trigger := .USER_ACTION
                    description := s!"Navigate to {sname}"
                    condition := none } ]
            else transitions
          | none => transitions
        (transitions, some screen.id))
      (existingTransitions, previousScreenId)).1
  else existingTransitions

/-- `AIFlowGenerator.validateAndNormalizeArchitecture`: normalize the decoded
payload into an `AppArchitecture`.  `now` is the `Date.now()` clock. -/
def validateAndNormalizeArchitecture (parsed : RawPayload) (originalGoal : String) (now : Nat) :
    AppArchitecture :=
  let screens := normalizedScreens parsed
  let apiEndpoints : List ApiEndpoint := []
  let transitions := resolvedTransitions parsed
  let transitions :=
    if transitions.length < screens.length - 1 then ensureConnectedFlow screens transitions
    else transitions
  { id := s!"app_{now}"
    name := jsOrString parsed.appName "Generated App"
    description := jsOrString parsed.description originalGoal
    screens := screens
    transitions := transitions
    apiEndpoints := apiEndpoints
    metadata :=
      { createdAt := toISOString now
        updatedAt := toISOString now
        version := "1.0.0"
        tags := parsed.tags.getD []
        complexity := normalizeComplexity parsed.complexity
        estimatedScreens := screens.length
        estimatedApis := 0 } }

/-- `AIFlowGenerator.generateArchitecture`: one attempt against the AI service
per invocation.  `aiResult` is the outcome of the `generateWithAI` path
(prompt, external `generateText` call, cleanup, `JSON.parse`): `Except.ok`
carries the decoded payload, `Except.error` is any thrown failure.  Every
failure is caught and falls back to `generateMockArchitecture`. -/
def generateArchitecture (goal : String) (aiResult : Except String RawPayload) (now : Nat) :
    AppArchitecture :=
  match aiResult with
  | .ok parsed => validateAndNormalizeArchitecture parsed goal now
  | .error _ => generateMockArchitecture goal now

/-- One breadth step of reachability over the transition list: add the target
of every transition whose source is already reached. -/
def reachStep (transitions : List Transition) (reached : List String) : List String :=
  reached ++
    (((transitions.filter fun t => reached.contains t.«from»).map fun t => t.«to»).filter
      fun x => !(reached.contains x))

/-- Iterated reachability closure. -/
def reachN (transitions : List Transition) : Nat → List String → List String
  | 0, reached => reached
  | n + 1, reached => reachN transitions n (reachStep transitions reached)

/-- Connectivity check over raw screen/transition lists: the screen list is
non-empty and every screen id is reachable from the first screen's id by
following transitions as directed edges. -/
def connCheck (screens : List Screen) (transitions : List Transition) : Bool :=
  match screens with
  | [] => false
  | s0 :: _ =>
    let reached := reachN transitions screens.length [s0.id]
    screens.all fun s => reached.contains s.id

/-- The connectivity invariant claimed by the spec for generated
architectures: at least one screen, and every screen reachable from the
first. -/
def connectedNonEmpty (a : AppArchitecture) : Bool :=
  connCheck a.screens a.transitions

/-- A node of the live diagram (React Flow `Node`).  The node payload beyond
the label is irrelevant to the verified operations and modelled by `label`. -/
structure RFNode where
  id : String
  type : String
  position : ℚ × ℚ
  label : String
  deriving DecidableEq

/-- An edge of the live diagram (React Flow `Edge`). -/
structure RFEdge where
  id : String
  source : String
  target : String
  label : String
  deriving DecidableEq

/-- One undo/redo snapshot of the diagram (`{ nodes: [...], edges: [...] }`). -/
structure FlowSnapshot where
  nodes : List RFNode
  edges : List RFEdge
  deriving DecidableEq

/-- The state of `FlowDiagramInner`: the live diagram, the selection, the tool
mode, the `editable` flag and the linear undo/redo history.  `historyIndex`
starts at `-1`, hence is an `Int`. -/
structure EditorState where
  nodes : List RFNode
  edges : List RFEdge
  selectedNodes : List String
  selectedEdges : List String
  selectedTool : String
  editable : Bool
  history : List FlowSnapshot
  historyIndex : Int
  deriving DecidableEq

/-- A fresh editor as mounted on a flow: empty history, `historyIndex = -1`,
select tool, no selection. -/
def freshEditor (nodes : List RFNode) (edges : List RFEdge) : EditorState :=
  { nodes := nodes, edges := edges, selectedNodes := [], selectedEdges := [],
    selectedTool := "select", editable := true, history := [], historyIndex := -1 }

/-- `saveToHistory`: truncate the history beyond the current pointer, push the
current node/edge state, and point at the new top. -/
def saveToHistory (s : EditorState) : EditorState :=
  let newHistory := s.history.take (s.historyIndex + 1).toNat ++
    [{ nodes := s.nodes, edges := s.edges }]
  { s with history := newHistory, historyIndex := (newHistory.length : Int) - 1 }

/-- `onConnect`: gated on `editable` and the select tool; pushes a history
snapshot, then appends the new default-labelled edge (the `addEdge` call of
the rendering library is modelled as an append).  `now` is `Date.now()`. -/
def onConnect (source target : String) (now : Nat) (s : EditorState) : EditorState :=
  if !s.editable || s.selectedTool ≠ "select" then s
  else
    let s := saveToHistory s
    { s with edges := s.edges ++
        [{ id := s!"edge_{now}", source := source, target := target, label := "Action" }] }

/-- `handleDeleteSelected`: early return on an empty selection; otherwise one
history snapshot, removal of the selected nodes together with every edge
incident to them, removal of the selected edges, and a cleared selection. -/
def handleDeleteSelected (s : EditorState) : EditorState :=
  if s.selectedNodes = [] ∧ s.selectedEdges = [] then s
  else
    let s := saveToHistory s
    let s :=
      if s.selectedNodes.length > 0 then
        { s with
          nodes := s.nodes.filter fun node => !(s.selectedNodes.contains node.id)
          edges := s.edges.filter fun edge =>
            !(s.selectedNodes.contains edge.source) && !(s.selectedNodes.contains edge.target) }
      else s
    let s :=
      if s.selectedEdges.length > 0 then
        { s with edges := s.edges.filter fun edge => !(s.selectedEdges.contains edge.id) }
      else s
    { s with selectedNodes := [], selectedEdges := [] }

/-- `handleUndo`: no-op at `historyIndex ≤ 0`; otherwise restore the snapshot
*below* the current pointer and decrement the pointer. -/
def handleUndo (s : EditorState) : EditorState :=
  if s.historyIndex ≤ 0 then s
  else
    let prevState := s.history.getD (s.historyIndex - 1).toNat { nodes := [], edges := [] }
    { s with nodes := prevState.nodes, edges := prevState.edges,
             historyIndex := s.historyIndex - 1 }

/-- `handleRedo`: no-op at the top of the history; otherwise restore the
snapshot above the current pointer and increment the pointer. -/
def handleRedo (s : EditorState) : EditorState :=
  if s.historyIndex ≥ (s.history.length : Int) - 1 then s
  else
    let nextState := s.history.getD (s.historyIndex + 1).toNat { nodes := [], edges := [] }
    { s with nodes := nextState.nodes, edges := nextState.edges,
             historyIndex := s.historyIndex + 1 }

/-- Minimum of a list of rationals (JavaScript `Math.min(...xs)`; only applied
to non-empty lists in the source). -/
def listMin (xs : List ℚ) : ℚ :=
  match xs with
  | [] => 0
  | x :: rest => rest.foldl min x

/-- Maximum of a list of rationals (JavaScript `Math.max(...xs)`). -/
def listMax (xs : List ℚ) : ℚ :=
  match xs with
  | [] => 0
  | x :: rest => rest.foldl max x

/-- `handleAlignNodes`: requires at least 2 selected nodes; pushes one history
snapshot and applies one shared x-coordinate (min, mean of extremes, or max)
to every selected node. -/
def handleAlignNodes (direction : String) (s : EditorState) : EditorState :=
  let selectedNodesList := s.nodes.filter fun node => s.selectedNodes.contains node.id
  if selectedNodesList.length < 2 then s
  else
    let s := saveToHistory s
    let xs := selectedNodesList.map fun node => node.position.1
    let alignX : ℚ :=
      if direction = "left" then listMin xs
      else if direction = "right" then listMax xs
      else (listMin xs + listMax xs) / 2
    { s with nodes := s.nodes.map fun node =>
        if s.selectedNodes.contains node.id then
          { node with position := (alignX, node.position.2) }
        else node }

/-- Stable insertion of an element into a sorted list: the element goes in
front of the first position it is not strictly after. -/
def sortedInsert {α : Type} (le : α → α → Bool) (a : α) : List α → List α
  | [] => [a]
  | b :: l => if le a b then a :: b :: l else b :: sortedInsert le a l

/-- Stable ascending insertion sort: the model of JavaScript's (stable)
`Array.prototype.sort` called with the comparator `(a, b) => key(a) - key(b)`. -/
def insertionSort {α : Type} (le : α → α → Bool) : List α → List α
  | [] => []
  | x :: xs => sortedInsert le x (insertionSort le xs)

/-- `handleDistributeNodes`: requires at least 3 selected nodes; pushes one
history snapshot, sorts the selection along the axis, and repositions every
selected node at `first + step * index` where `step` spans the extremes
evenly. -/
def handleDistributeNodes (direction : String) (s : EditorState) : EditorState :=
  let selectedNodesList := s.nodes.filter fun node => s.selectedNodes.contains node.id
  if selectedNodesList.length < 3 then s
  else
    let s := saveToHistory s
    let key : RFNode → ℚ := fun n =>
      if direction = "horizontal" then n.position.1 else n.position.2
    let sorted := insertionSort (fun a b => decide (key a ≤ key b)) selectedNodesList
    let first := sorted.headD { id := "", type := "", position := (0, 0), label := "" }
    let last := sorted.getLastD { id := "", type := "", position := (0, 0), label := "" }
    let totalDistance := key last - key first
    let step := totalDistance / ((selectedNodesList.length : ℚ) - 1)
    { s with nodes := s.nodes.map fun node =>
        match sorted.findIdx? (fun n2 => n2.id = node.id) with
        | none => node
        | some index =>
          if direction = "horizontal" then
            { node with position := (first.position.1 + step * index, node.position.2) }
          else
            { node with position := (node.position.1, first.position.2 + step * index) } }

/-- The `onDuplicate` context-menu action: clone an existing node under a
fresh id at a `+50/+50` offset (one history snapshot; edges not cloned).
`counter` is the `nodeIdCounter` ref value. -/
def onDuplicate (nodeId : String) (counter : Nat) (s : EditorState) : EditorState :=
  match s.nodes.find? fun n => n.id = nodeId with
  | none => s
  | some node =>
    let s := saveToHistory s
    { s with nodes := s.nodes ++
        [{ node with id := s!"node_{counter}",
                     position := (node.position.1 + 50, node.position.2 + 50) }] }

/-- C1: `generateArchitecture` never throws to its caller: it is a total
function into `AppArchitecture`, and whenever the AI path fails (network
error, unparseable or malformed response) the error is absorbed and the
deterministic fallback `generateMockArchitecture goal` is returned; on
success the normalized payload is returned. -/
theorem generateArchitecture_absorbs_failures (goal err : String) (parsed : RawPayload)
    (now : Nat) :
    generateArchitecture goal (Except.error err) now = generateMockArchitecture goal now ∧
    generateArchitecture goal (Except.ok parsed) now =
      validateAndNormalizeArchitecture parsed goal now :=
  ⟨rfl, rfl⟩

/-- C4 counterexample: `generateMockArchitecture` is not a pure function of
the goal string alone — two calls with the same goal at different `Date.now()`
clock values produce different architectures (the `id` and the metadata
timestamps embed the clock). -/
theorem generateMockArchitecture_clock_dependent :
    generateMockArchitecture "Build a todo app" 0 ≠ generateMockArchitecture "Build a todo app" 1 :=
  fun h => absurd (congrArg AppArchitecture.id h) (by decide)

/-- C4 amended: `generateMockArchitecture` is a pure function of the goal
string in every field except the clock-derived ones: for any two clock
values, the name, description, screens, transitions, api endpoints and all
metadata fields except the `createdAt`/`updatedAt` timestamps (and the
clock-derived architecture `id`) coincide. -/
theorem generateMockArchitecture_deterministic_modulo_clock (goal : String) (t1 t2 : Nat) :
    (generateMockArchitecture goal t1).name = (generateMockArchitecture goal t2).name ∧
    (generateMockArchitecture goal t1).description =
      (generateMockArchitecture goal t2).description ∧
    (generateMockArchitecture goal t1).screens = (generateMockArchitecture goal t2).screens ∧
    (generateMockArchitecture goal t1).transitions =
      (generateMockArchitecture goal t2).transitions ∧
    (generateMockArchitecture goal t1).apiEndpoints =
      (generateMockArchitecture goal t2).apiEndpoints ∧
    (generateMockArchitecture goal t1).metadata.version =
      (generateMockArchitecture goal t2).metadata.version ∧
    (generateMockArchitecture goal t1).metadata.tags =
      (generateMockArchitecture goal t2).metadata.tags ∧
    (generateMockArchitecture goal t1).metadata.complexity =
      (generateMockArchitecture goal t2).metadata.complexity ∧
    (generateMockArchitecture goal t1).metadata.estimatedScreens =
      (generateMockArchitecture goal t2).metadata.estimatedScreens ∧
    (generateMockArchitecture goal t1).metadata.estimatedApis =
      (generateMockArchitecture goal t2).metadata.estimatedApis :=
  ⟨rfl, rfl, rfl, rfl, rfl, rfl, rfl, rfl, rfl, rfl⟩

/-- A single screen node used by the editor scenarios. -/
def nodeA : RFNode := { id := "a", type := "screen", position := (0, 0), label := "A" }

/-- Fresh editor holding one node and no edges. -/
def c3Start : EditorState := freshEditor [nodeA] []

/-- The editor after one history-pushing mutation (a `connect`). -/
def c3After1 : EditorState := onConnect "a" "a" 7 c3Start

/-- The editor after a second history-pushing mutation. -/
def c3After2 : EditorState := onConnect "a" "a" 8 c3After1

/-- C3: evaluation of the undo/redo machinery at the failing input.  On a
fresh editor, after k = 1 mutation, `undo` is a no-op (the guard
`historyIndex <= 0` fires because `saveToHistory` records only the
pre-mutation state), so the initial state is not restored; and after k = 2
mutations, undoing twice and then redoing twice lands on the state after the
first mutation, not the second — the current state is never present in the
history, so the last mutation can be neither undone (k = 1) nor re-reached
by redo. -/
theorem undo_redo_off_by_one :
    handleUndo c3After1 = c3After1 ∧
    c3After1.edges ≠ c3Start.edges ∧
    (handleUndo (handleUndo c3After2)).edges = c3Start.edges ∧
    (handleRedo (handleRedo (handleUndo (handleUndo c3After2)))).edges = c3After1.edges ∧
    c3After1.edges ≠ c3After2.edges := by
  refine ⟨by decide, by decide, by decide, by decide, by decide⟩

/-- Editor in pan mode with one selected node (selection made in select mode
persists across the tool switch; `elementsSelectable` is not tool-gated). -/
def panDelState : EditorState :=
  { nodes := [nodeA], edges := [], selectedNodes := ["a"], selectedEdges := [],
    selectedTool := "pan", editable := true, history := [], historyIndex := -1 }

/-- Editor in pan mode with two selected nodes at distinct x positions. -/
def panAlignState : EditorState :=
  { nodes := [nodeA, { id := "b", type := "screen", position := (10, 5), label := "B" }],
    edges := [], selectedNodes := ["a", "b"], selectedEdges := [],
    selectedTool := "pan", editable := true, history := [], historyIndex := -1 }

/-- Editor in pan mode with three selected nodes at x = 0, 1, 5. -/
def panDistState : EditorState :=
  { nodes := [nodeA,
      { id := "b", type := "screen", position := (1, 0), label := "B" },
      { id := "c", type := "screen", position := (5, 0), label := "C" }],
    edges := [], selectedNodes := ["a", "b", "c"], selectedEdges := [],
    selectedTool := "pan", editable := true, history := [], historyIndex := -1 }

/-- C7 counterexample: with the pan tool active, `deleteSelected` still
structurally mutates the node collection (only `onConnect` checks the tool
mode), refuting the claim that all structural mutations are no-ops outside
select mode. -/
theorem pan_mode_gating_cex :
    (handleDeleteSelected panDelState).nodes ≠ panDelState.nodes ∧
    panDelState.selectedTool = "pan" := by
  refine ⟨by decide, rfl⟩

/-- C7 amended: the tool mode gates only `connect`: with any tool other than
select (or with editing disabled), `onConnect` leaves the whole editor state
unchanged; but `deleteSelected`, `align`, `distribute` and `duplicate` are
gated only on their selection/argument preconditions, and each of them does
mutate the node collection in pan mode when those preconditions hold. -/
theorem structural_mutation_gating (s : EditorState) (source target : String) (now : Nat)
    (h : s.selectedTool ≠ "select") :
    onConnect source target now s = s ∧
    (handleDeleteSelected panDelState).nodes ≠ panDelState.nodes ∧
    (handleAlignNodes "left" panAlignState).nodes ≠ panAlignState.nodes ∧
    (handleDistributeNodes "horizontal" panDistState).nodes ≠ panDistState.nodes ∧
    (onDuplicate "a" 1000 panDelState).nodes ≠ panDelState.nodes := by
  refine ⟨?_, by decide, by decide, ?_, by decide⟩
  · unfold onConnect
    have hb : decide (s.selectedTool ≠ "select") = true := decide_eq_true h
    simp [hb]
  · intro hcontra
    have h2 := congrArg (fun l => (l.getD 1 nodeA).position.1) hcontra
    simp [handleDistributeNodes, saveToHistory, insertionSort, sortedInsert,
      panDistState, nodeA] at h2
    norm_num at h2

/-- Witness for `structural_mutation_gating` at a concrete pan-mode state. -/
theorem structural_mutation_gating_witness :
    onConnect "a" "b" 3 panDelState = panDelState :=
  (structural_mutation_gating panDelState "a" "b" 3 (by decide)).1

/-- Node at x = 0 for the distribute scenario. -/
def c9a : RFNode := { id := "a", type := "screen", position := (0, 20), label := "A" }

/-- Node at x = 100 for the distribute scenario. -/
def c9b : RFNode := { id := "b", type := "screen", position := (100, 40), label := "B" }

/-- Node at x = 500 for the distribute scenario. -/
def c9c : RFNode := { id := "c", type := "screen", position := (500, 60), label := "C" }

/-- Editor with exactly the three distribute-scenario nodes selected. -/
def c9State : EditorState :=
  { nodes := [c9a, c9b, c9c], edges := [], selectedNodes := ["a", "b", "c"],
    selectedEdges := [], selectedTool := "select", editable := true,
    history := [], historyIndex := -1 }

/-- C9: `distribute('horizontal')` is a no-op whenever fewer than 3 selected
nodes exist, and on exactly 3 selected nodes at x = 0, 100, 500 it moves the
middle node to x = 250 (equal spacing between the extremes) and leaves the
two extreme nodes exactly in place (y-coordinates untouched). -/
theorem distribute_horizontal_spec :
    (∀ s : EditorState,
        (s.nodes.filter fun node => s.selectedNodes.contains node.id).length < 3 →
        handleDistributeNodes "horizontal" s = s) ∧
    (handleDistributeNodes "horizontal" c9State).nodes =
      [c9a, { c9b with position := (250, 40) }, c9c] := by
  constructor
  · intro s h
    simp only [handleDistributeNodes, if_pos h]
  · simp [handleDistributeNodes, saveToHistory, insertionSort, sortedInsert,
      c9State, c9a, c9b, c9c]
    norm_num

/-- Witness for `distribute_horizontal_spec` at a concrete two-node
selection. -/
theorem distribute_horizontal_spec_witness :
    handleDistributeNodes "horizontal" { c9State with selectedNodes := ["a", "b"] } =
      { c9State with selectedNodes := ["a", "b"] } :=
  distribute_horizontal_spec.1 { c9State with selectedNodes := ["a", "b"] } (by decide)

/-- C8: `deleteSelected` with exactly one selected node and no selected
edges removes exactly that node (assumed to occur once) and exactly its
incident edges (assumed to number 2), keeps every other node and edge
unchanged and in order, clears the selection, and pushes exactly one history
snapshot (the pre-deletion state), pointing the history index at it. -/
theorem deleteSelected_single_node_frame (s : EditorState) (nid : String)
    (hsel : s.selectedNodes = [nid]) (hedg : s.selectedEdges = [])
    (hone : s.nodes.countP (fun n => n.id == nid) = 1)
    (hinc : s.edges.countP (fun e => e.source == nid || e.target == nid) = 2) :
    (handleDeleteSelected s).nodes = s.nodes.filter (fun n => !(n.id == nid)) ∧
    (handleDeleteSelected s).nodes.length + 1 = s.nodes.length ∧
    (handleDeleteSelected s).edges =
      s.edges.filter (fun e => !(e.source == nid || e.target == nid)) ∧
    (handleDeleteSelected s).edges.length + 2 = s.edges.length ∧
    (handleDeleteSelected s).selectedNodes = [] ∧
    (handleDeleteSelected s).selectedEdges = [] ∧
    (handleDeleteSelected s).history =
      s.history.take (s.historyIndex + 1).toNat ++ [{ nodes := s.nodes, edges := s.edges }] ∧
    (handleDeleteSelected s).historyIndex =
      ((handleDeleteSelected s).history.length : Int) - 1 := by
  have hmain : handleDeleteSelected s =
      { nodes := s.nodes.filter fun n => !(n.id == nid)
        edges := s.edges.filter fun e => !(e.source == nid || e.target == nid)
        selectedNodes := []
        selectedEdges := []
        selectedTool := s.selectedTool
        editable := s.editable
        history := s.history.take (s.historyIndex + 1).toNat ++
          [{ nodes := s.nodes, edges := s.edges }]
        historyIndex :=
          ((s.history.take (s.historyIndex + 1).toNat ++
            [({ nodes := s.nodes, edges := s.edges } : FlowSnapshot)]).length : Int) - 1 } := by
    have hdb : ∀ a b : String, decide (a = b) = (a == b) := by
      intro a b
      cases h : a == b <;> simp_all
    simp [handleDeleteSelected, saveToHistory, hsel, hedg]
    refine ⟨List.filter_congr ?_, List.filter_congr ?_⟩ <;>
      (intro a _; simp [hdb, Bool.not_or])
  have hnlen : (s.nodes.filter fun n => !(n.id == nid)).length + 1 = s.nodes.length := by
    have := List.length_eq_countP_add_countP (fun n : RFNode => n.id == nid) s.nodes
    rw [hone] at this
    have hfe : (s.nodes.countP fun a => decide ¬(a.id == nid) = true) =
        (s.nodes.filter fun n => !(n.id == nid)).length := by
      rw [← List.countP_eq_length_filter]
      apply List.countP_congr
      intro a _
      simp
    omega
  have helen : (s.edges.filter fun e => !(e.source == nid || e.target == nid)).length + 2 =
      s.edges.length := by
    have := List.length_eq_countP_add_countP
      (fun e : RFEdge => e.source == nid || e.target == nid) s.edges
    rw [hinc] at this
    have hfe : (s.edges.countP fun a => decide ¬((a.source == nid || a.target == nid) = true)) =
        (s.edges.filter fun e => !(e.source == nid || e.target == nid)).length := by
      rw [← List.countP_eq_length_filter]
      apply List.countP_congr
      intro a _
      simp
    omega
  rw [hmain]
  exact ⟨rfl, hnlen, rfl, helen, rfl, rfl, rfl, rfl⟩

/-- Edge `a → b` for the deletion scenario. -/
def e_ab : RFEdge := { id := "e1", source := "a", target := "b", label := "go" }

/-- Edge `b → c` for the deletion scenario. -/
def e_bc : RFEdge := { id := "e2", source := "b", target := "c", label := "go" }

/-- Edge `a → c` for the deletion scenario. -/
def e_ac : RFEdge := { id := "e3", source := "a", target := "c", label := "go" }

/-- Editor holding three nodes and three edges with only node `b` selected
(`b` has exactly the 2 incident edges `e_ab` and `e_bc`). -/
def c8State : EditorState :=
  { nodes := [nodeA,
      { id := "b", type := "screen", position := (1, 1), label := "B" },
      { id := "c", type := "screen", position := (2, 2), label := "C" }],
    edges := [e_ab, e_bc, e_ac], selectedNodes := ["b"], selectedEdges := [],
    selectedTool := "select", editable := true, history := [], historyIndex := -1 }

/-- Witness for `deleteSelected_single_node_frame` on the concrete editor
`c8State`. -/
theorem deleteSelected_single_node_frame_witness :
    (handleDeleteSelected c8State).edges.length + 2 = c8State.edges.length ∧
    (handleDeleteSelected c8State).nodes.length + 1 = c8State.nodes.length :=
  ⟨(deleteSelected_single_node_frame c8State "b" rfl rfl (by decide) (by decide)).2.2.2.1,
   (deleteSelected_single_node_frame c8State "b" rfl rfl (by decide) (by decide)).2.1⟩

/-- Canonical analysis record determined by the four feature flags the
general template actually reads. -/
def quadAnalysis (a d p s : Bool) : GoalAnalysis :=
  { appType := "", appName := "", tags := [], complexity := .SIMPLE,
    features :=
      { hasAuth := a, hasOnboarding := true, hasDashboard := d, hasList := true,
        hasDetail := true, hasForm := true, hasProfile := p, hasSettings := s,
        hasSearch := true, hasCart := true, hasPayment := true, hasMap := true,
        hasChat := true, hasNotifications := true, hasFeed := true, hasBooking := true,
        hasTracking := true },
    originalGoal := "" }

/-- The general template yields a connected non-empty graph for every
combination of the four feature flags it reads. -/
theorem generalApp_connCheck_quad (a d p s : Bool) :
    connCheck (generateGeneralAppScreens (quadAnalysis a d p s))
      (generateGeneralTransitions (generateGeneralAppScreens (quadAnalysis a d p s))
        (quadAnalysis a d p s)) = true := by
  cases a <;> cases d <;> cases p <;> cases s <;> decide

/-- The general template always yields a connected non-empty graph: its
output depends only on the four feature flags, so the quadruple lemma
transfers to every analysis record. -/
theorem generalApp_connCheck (A : GoalAnalysis) :
    connCheck (generateGeneralAppScreens A)
      (generateGeneralTransitions (generateGeneralAppScreens A) A) = true :=
  generalApp_connCheck_quad A.features.hasAuth A.features.hasDashboard
    A.features.hasProfile A.features.hasSettings

set_option maxHeartbeats 1600000 in
/-- The food-delivery template is connected and non-empty. -/
theorem foodDelivery_connCheck :
    connCheck (generateFoodDeliveryScreens (quadAnalysis true true true true))
      (generateFoodDeliveryTransitions
        (generateFoodDeliveryScreens (quadAnalysis true true true true))) = true := by
  decide

set_option maxHeartbeats 1600000 in
/-- The ecommerce template is connected and non-empty. -/
theorem ecommerce_connCheck :
    connCheck (generateEcommerceScreens (quadAnalysis true true true true))
      (generateEcommerceTransitions
        (generateEcommerceScreens (quadAnalysis true true true true))) = true := by
  decide

set_option maxHeartbeats 1600000 in
/-- The social template is connected and non-empty. -/
theorem social_connCheck :
    connCheck (generateSocialScreens (quadAnalysis true true true true))
      (generateSocialTransitions
        (generateSocialScreens (quadAnalysis true true true true))) = true := by
  decide

set_option maxHeartbeats 1600000 in
/-- Every fallback template (food delivery, ecommerce, social, or the general
family) produces at least one screen with every screen reachable from the
first. -/
theorem mock_connCheck (A : GoalAnalysis) :
    connCheck (generateScreens A) (generateTransitions (generateScreens A) A) = true := by
  by_cases h1 : A.appType = "foodDelivery"
  · simp only [generateScreens, generateTransitions, if_pos h1]
    exact foodDelivery_connCheck
  · by_cases h2 : A.appType = "ecommerce"
    · simp only [generateScreens, generateTransitions, if_neg h1, if_pos h2]
      exact ecommerce_connCheck
    · by_cases h3 : A.appType = "social"
      · simp only [generateScreens, generateTransitions, if_neg h1, if_neg h2, if_pos h3]
        exact social_connCheck
      · simp only [generateScreens, generateTransitions, if_neg h1, if_neg h2, if_neg h3,
          generateFinanceScreens, generateTravelScreens, generateFitnessScreens, ite_self]
        exact generalApp_connCheck A

/-- The decoded payload of a syntactically valid AI response that carries no
screens and no transitions (e.g. the AI returned `{}`). -/
def emptyAIPayload : RawPayload := {}

/-- C2 counterexample: for the non-empty goal `"Build a todo app"`, when the
AI call succeeds with a decodable payload containing no screens,
`generateArchitecture` returns an architecture with zero screens, refuting
the claim that every returned architecture has at least one screen with all
screens reachable from the first. -/
theorem generateArchitecture_connectivity_cex :
    connectedNonEmpty (generateArchitecture "Build a todo app" (Except.ok emptyAIPayload) 0)
      = false ∧
    "Build a todo app" ≠ "" :=
  ⟨rfl, by decide⟩

/-- C2 amended: for every non-empty goal string, whenever the AI path fails
(so the deterministic fallback is taken), the architecture returned by
`generateArchitecture` has at least one screen and every screen is reachable
from the first screen via transitions; on a successful AI call the result
mirrors the payload and need not satisfy the invariant. -/
theorem generateArchitecture_fallback_connected (goal err : String) (now : Nat)
    (_hg : goal ≠ "") :
    connectedNonEmpty (generateArchitecture goal (Except.error err) now) = true :=
  mock_connCheck (analyzeGoal goal)

/-- Witness for `generateArchitecture_fallback_connected` at a concrete goal
and failure. -/
theorem generateArchitecture_fallback_connected_witness :
    connectedNonEmpty (generateArchitecture "Build a todo app" (Except.error "timeout") 0)
      = true :=
  generateArchitecture_fallback_connected "Build a todo app" "timeout" 0 (by decide)

/-- Mapping a function of the index over an enumerated list is mapping it over
the index range. -/
theorem enumFrom_map_fst_proj {α β : Type} (f : Nat → β) (l : List α) (n : Nat) :
    (l.enumFrom n).map (fun p => f p.1) = (List.range' n l.length).map f := by
  induction l generalizing n with
  | nil => rfl
  | cons a as ih =>
    simp only [List.enumFrom_cons, List.map_cons, List.length_cons, List.range'_succ, ih]

/-- Specialization of `enumFrom_map_fst_proj` to `enum`. -/
theorem enum_map_fst_proj {α β : Type} (f : Nat → β) (l : List α) :
    l.enum.map (fun p => f p.1) = (List.range l.length).map f := by
  rw [List.enum, enumFrom_map_fst_proj, List.range_eq_range']

/-- C10: normalization re-assigns every screen the fresh sequential id
`screen_<index>` while never reading any id carried by the payload, and
transition endpoints are resolved solely by exact screen-name lookup: a raw
transition whose `from` or `to` matches no screen name resolves to nothing
(it is dropped), and one whose endpoints both match resolves to the matched
screens' fresh ids. -/
theorem normalization_resolves_by_name_only (parsed : RawPayload) :
    ((normalizedScreens parsed).map Screen.id =
      (List.range (parsed.screens.getD []).length).map fun i => s!"screen_{i}") ∧
    (∀ (i : Nat) (rs : RawScreen) (v : Option String),
      normalizeScreen i { rs with id := v } = normalizeScreen i rs) ∧
    (∀ (i : Nat) (rt : RawTransition),
      findByName (normalizedScreens parsed) rt.«from» = none ∨
        findByName (normalizedScreens parsed) rt.«to» = none →
      resolveTransition (normalizedScreens parsed) i rt = none) ∧
    (∀ (i : Nat) (rt : RawTransition) (fs ts : Screen),
      findByName (normalizedScreens parsed) rt.«from» = some fs →
      findByName (normalizedScreens parsed) rt.«to» = some ts →
      resolveTransition (normalizedScreens parsed) i rt =
        some { id := s!"transition_{i}"
               «from» := fs.id
               «to» := ts.id
               trigger := normalizeTransitionTrigger (jsOrString rt.trigger "user_action")
               description := jsOrString rt.description "User navigates"
               condition := rt.userMotivation }) := by
  refine ⟨?_, ?_, ?_, ?_⟩
  · show ((parsed.screens.getD []).enum.map fun p => normalizeScreen p.1 p.2).map Screen.id =
      (List.range (parsed.screens.getD []).length).map fun i => s!"screen_{i}"
    rw [List.map_map]
    exact enum_map_fst_proj (fun i => s!"screen_{i}") (parsed.screens.getD [])
  · intro i rs v
    cases rs
    rfl
  · intro i rt h
    unfold resolveTransition
    rcases h with h | h
    · rw [h]
    · rw [h]
      rcases findByName (normalizedScreens parsed) rt.«from» with _ | fs <;> rfl
  · intro i rt fs ts h1 h2
    unfold resolveTransition
    rw [h1, h2]

/-- Payload whose single transition refers to a screen by id-style string
(`screen_0`) rather than by name. -/
def c10Payload : RawPayload :=
  { screens := some [{ name := some "A" }, { name := some "B" }],
    transitions := some [{ «from» := some "screen_0", «to» := some "B" }] }

/-- Witness for `normalization_resolves_by_name_only`: an id-style endpoint
reference matches no screen name and the transition is dropped. -/
theorem normalization_resolves_by_name_only_witness :
    resolveTransition (normalizedScreens c10Payload) 0
      { «from» := some "screen_0", «to» := some "B" } = none :=
  (normalization_resolves_by_name_only c10Payload).2.2.1 0
    { «from» := some "screen_0", «to» := some "B" } (Or.inl (by decide))

/-- Payload with screens A, B, C and transitions A→B, B→A: screen C is an
orphan (no incident transition), but the resolved-transition count (2) is not
below `screens − 1` (2), so the connectivity repair is skipped. -/
def c5OrphanKeptPayload : RawPayload :=
  { screens := some [{ name := some "A" }, { name := some "B" }, { name := some "C" }],
    transitions := some
      [{ «from» := some "A", «to» := some "B" }, { «from» := some "B", «to» := some "A" }] }

/-- C5 counterexample: on `c5OrphanKeptPayload` the orphan screen `screen_2`
receives no synthetic transition at all — the output keeps exactly the two
resolved transitions, none of which touches `screen_2`, refuting the claim
that every orphan screen is stitched into the graph. -/
theorem orphan_not_stitched_cex :
    (validateAndNormalizeArchitecture c5OrphanKeptPayload "g" 0).screens.length = 3 ∧
    (validateAndNormalizeArchitecture c5OrphanKeptPayload "g" 0).transitions.length = 2 ∧
    ((validateAndNormalizeArchitecture c5OrphanKeptPayload "g" 0).transitions.all
      fun t => !(t.«from» == "screen_2") && !(t.«to» == "screen_2")) = true := by
  refine ⟨by decide, by decide, by decide⟩

/-- C5 amended: when the connectivity repair does run — i.e. the resolved
transitions number fewer than `screens − 1` — and the payload has exactly one
orphan screen `c` plus at least one connected screen (the first being `fc`),
the repair appends exactly one synthetic transition, from `fc` to `c`;
otherwise (resolved count ≥ screens − 1) the repair is skipped and an orphan
can survive, as `orphan_not_stitched_cex` shows. -/
theorem orphan_stitched_when_repair_runs (parsed : RawPayload) (goal : String) (now : Nat)
    {c fc : Screen}
    (hguard : (resolvedTransitions parsed).length < (normalizedScreens parsed).length - 1)
    (horphan : ((normalizedScreens parsed).filter
      fun s => !((connectedIds (resolvedTransitions parsed)).contains s.id)) = [c])
    (hconn : ((normalizedScreens parsed).find?
      fun s => (connectedIds (resolvedTransitions parsed)).contains s.id) = some fc) :
    (validateAndNormalizeArchitecture parsed goal now).transitions =
      resolvedTransitions parsed ++
        [{ id := s!"fallback_transition_{(resolvedTransitions parsed).length}"
           «from» := fc.id
           «to» := c.id
           trigger := .USER_ACTION
           description := s!"Navigate to {c.name}"
           condition := none }] := by
  have hcmem : c ∈ ((normalizedScreens parsed).filter
      fun s => !((connectedIds (resolvedTransitions parsed)).contains s.id)) := by
    rw [horphan]
    exact List.mem_singleton.mpr rfl
  have hcprop := (List.mem_filter.mp hcmem).2
  have hfcprop := List.find?_some hconn
  have hne : fc.id ≠ c.id := by
    intro he
    rw [he] at hfcprop
    rw [hfcprop] at hcprop
    simp at hcprop
  show (if (resolvedTransitions parsed).length < (normalizedScreens parsed).length - 1 then
      ensureConnectedFlow (normalizedScreens parsed) (resolvedTransitions parsed)
    else resolvedTransitions parsed) = _
  rw [if_pos hguard]
  unfold ensureConnectedFlow
  simp only [horphan, hconn, List.length_cons, List.length_nil, List.foldl_cons,
    List.foldl_nil, Nat.lt_irrefl, gt_iff_lt, Nat.zero_lt_one, if_pos, if_pos hne]
  norm_num

/-- Payload with screens A, B, C and the single transition A→B: the resolved
count (1) is below `screens − 1` (2), so the repair runs; C is the unique
orphan and A the first connected screen. -/
def c5RepairPayload : RawPayload :=
  { screens := some [{ name := some "A" }, { name := some "B" }, { name := some "C" }],
    transitions := some [{ «from» := some "A", «to» := some "B" }] }

/-- Witness for `orphan_stitched_when_repair_runs` on `c5RepairPayload`. -/
theorem orphan_stitched_when_repair_runs_witness :
    (validateAndNormalizeArchitecture c5RepairPayload "g" 0).transitions.length = 2 := by
  rw [orphan_stitched_when_repair_runs c5RepairPayload "g" 0 (by decide) rfl rfl]
  decide

/-- `filterMap` by a function that succeeds on every element preserves the
length. -/
theorem length_filterMap_of_isSome {α β : Type} (f : α → Option β) (l : List α)
    (h : ∀ x ∈ l, (f x).isSome) : (l.filterMap f).length = l.length := by
  induction l with
  | nil => rfl
  | cons a as ih =>
    rcases ho : f a with _ | b
    · exact absurd (h a (List.mem_cons_self a as)) (by simp [ho])
    · rw [List.filterMap_cons_some ho, List.length_cons, List.length_cons,
        ih fun x hx => h x (List.mem_cons_of_mem a hx)]

/-- Payload with screens A, B, C, D and transitions A→B, B→C, C→X where X
names no screen: dropping C→X leaves 2 transitions for 4 screens, so the
connectivity repair appends a synthetic transition for the orphan D. -/
def c6AddedPayload : RawPayload :=
  { screens := some [{ name := some "A" }, { name := some "B" }, { name := some "C" },
      { name := some "D" }],
    transitions := some [{ «from» := some "A", «to» := some "B" },
      { «from» := some "B", «to» := some "C" }, { «from» := some "C", «to» := some "X" }] }

/-- C6 counterexample: on `c6AddedPayload` exactly one transition references a
non-existent screen name and is dropped, but normalization does not leave
everything else unchanged: the connectivity repair then adds a synthetic
transition (`fallback_transition_2`), so the output has 3 transitions where
the claim mandates 2 and no additions. -/
theorem drop_triggers_synthetic_addition_cex :
    resolveTransition (normalizedScreens c6AddedPayload) 2
      { «from» := some "C", «to» := some "X" } = none ∧
    (validateAndNormalizeArchitecture c6AddedPayload "g" 0).transitions.length = 3 ∧
    ((validateAndNormalizeArchitecture c6AddedPayload "g" 0).transitions.getLastD
      { id := "", «from» := "", «to» := "", trigger := .USER_ACTION,
        description := "" }).id = "fallback_transition_2" := by
  refine ⟨by decide, by decide, by decide⟩

/-- C6 amended: when exactly one raw transition is unresolvable (its `from` or
`to` matches no screen name) and the remaining resolved transitions number at
least `screens − 1` (so the connectivity repair is skipped), normalization
drops exactly that transition: the output is precisely the resolution of the
other raw transitions, kept in order under their original indices, and
nothing is added; without the count proviso the repair may append synthetic
transitions, as `drop_triggers_synthetic_addition_cex` shows. -/
theorem unresolvable_transition_dropped_exactly (parsed : RawPayload) (goal : String)
    (now : Nat) (pre post : List RawTransition) (bad : RawTransition)
    (hsplit : parsed.transitions.getD [] = pre ++ bad :: post)
    (hbad : resolveTransition (normalizedScreens parsed) pre.length bad = none)
    (hpre : ∀ p ∈ pre.enum, (resolveTransition (normalizedScreens parsed) p.1 p.2).isSome)
    (hpost : ∀ p ∈ post.enumFrom (pre.length + 1),
        (resolveTransition (normalizedScreens parsed) p.1 p.2).isSome)
    (hguard : ¬(pre.length + post.length < (normalizedScreens parsed).length - 1)) :
    (validateAndNormalizeArchitecture parsed goal now).transitions =
      (pre.enum.filterMap fun p => resolveTransition (normalizedScreens parsed) p.1 p.2) ++
        ((post.enumFrom (pre.length + 1)).filterMap fun p =>
          resolveTransition (normalizedScreens parsed) p.1 p.2) ∧
    (validateAndNormalizeArchitecture parsed goal now).transitions.length =
      pre.length + post.length := by
  have hres : resolvedTransitions parsed =
      (pre.enum.filterMap fun p => resolveTransition (normalizedScreens parsed) p.1 p.2) ++
        ((post.enumFrom (pre.length + 1)).filterMap fun p =>
          resolveTransition (normalizedScreens parsed) p.1 p.2) := by
    unfold resolvedTransitions
    have hbad2 : (fun p : Nat × RawTransition =>
        resolveTransition (normalizedScreens parsed) p.1 p.2) (pre.length, bad) = none := hbad
    rw [hsplit, List.enum_append, List.filterMap_append, List.enumFrom_cons,
      @List.filterMap_cons_none (Nat × RawTransition) Transition
        (fun p => resolveTransition (normalizedScreens parsed) p.1 p.2) (pre.length, bad)
        (List.enumFrom (pre.length + 1) post) hbad2]
  have hlen : (resolvedTransitions parsed).length = pre.length + post.length := by
    rw [hres, List.length_append, length_filterMap_of_isSome _ _ hpre,
      length_filterMap_of_isSome _ _ hpost, List.enum_length, List.enumFrom_length]
  constructor
  · show (if (resolvedTransitions parsed).length < (normalizedScreens parsed).length - 1 then
        ensureConnectedFlow (normalizedScreens parsed) (resolvedTransitions parsed)
      else resolvedTransitions parsed) = _
    rw [hlen, if_neg hguard]
    exact hres
  · show (if (resolvedTransitions parsed).length < (normalizedScreens parsed).length - 1 then
        ensureConnectedFlow (normalizedScreens parsed) (resolvedTransitions parsed)
      else resolvedTransitions parsed).length = _
    rw [hlen, if_neg hguard]
    exact hlen

/-- Raw transition A→B for the drop-witness payload. -/
def rtAB : RawTransition := { «from» := some "A", «to» := some "B" }

/-- Raw transition A→X (X names no screen) for the drop-witness payload. -/
def rtAX : RawTransition := { «from» := some "A", «to» := some "X" }

/-- Raw transition B→A for the drop-witness payload. -/
def rtBA : RawTransition := { «from» := some "B", «to» := some "A" }

/-- Payload with screens A, B and raw transitions A→B, A→X, B→A: only A→X is
unresolvable, and the two resolved transitions are at least `screens − 1`. -/
def c6DropPayload : RawPayload :=
  { screens := some [{ name := some "A" }, { name := some "B" }],
    transitions := some [rtAB, rtAX, rtBA] }

/-- Witness for `unresolvable_transition_dropped_exactly` on
`c6DropPayload`. -/
theorem unresolvable_transition_dropped_exactly_witness :
    (validateAndNormalizeArchitecture c6DropPayload "g" 0).transitions.length = 2 :=
  (unresolvable_transition_dropped_exactly c6DropPayload "g" 0 [rtAB] [rtBA] rtAX rfl
    (by decide) (by decide) (by decide) (by decide)).2
